import Mathlib

/-!
# Verification of the SchemeShala recommendation core (`src/app.py`)

Shallow embedding of the normalization + filter + scoring + ranking pipeline
of `app.py`.  Records are pandas DataFrame rows; we model a row as a structure
whose textual columns are `String` and whose numeric eligibility columns are
`Option Int` (`none` models a NaN cell).  The code guards numeric filtering on
column presence (`"minAge" in out.columns`); we model tables in which the
three numeric columns exist, with absent cells as `none`, which is the
granularity the filtering logic of `_apply_numeric_filters` actually reads
(via `fillna` sentinels).

Python's `.lower()` is modelled by `Char.toLower` (the data and the profile
keywords are ASCII), `.strip()` by `trimStr`, and `x in s` by contiguous
substring containment.

pandas `Series.str.contains(pat)` treats `pat` as a *regular expression*
(`regex=True` is the default).  The main pipeline below models those checks
as literal substring containment, which coincides with the code's behaviour
exactly when the keyword contains no regex metacharacter.  The app's state
and category selectbox values are all of this kind, but the `OCCUPATIONS`
list includes "Professional (Doctor)" and "Professional (Engineer)", whose
keywords carry grouping parentheses; statements about the occupation boost
therefore either carry an explicit metacharacter-free hypothesis or are
made about the regex-semantics definitions.  A second model (`regexParse`,
`reSearch`, `reSearchChecked`, `applySearchRe`, `occBoostRe`) captures the
regex semantics for the subset of Python's `re` syntax needed here —
literal characters, the `.` wildcard and grouping parentheses (other
metacharacters are outside the modelled subset and are conservatively
rejected by the parser) — and the coincidence with substring containment
for metacharacter-free keywords is proved.
-/

namespace SchemeShala

/-! ## String primitives -/

/-- Python `s.lower()`: lowercase every character (ASCII-faithful). -/
def lowerStr (s : String) : String :=
  String.mk (s.data.map Char.toLower)

/-- Drop leading whitespace characters. -/
def dropWs : List Char → List Char
  | [] => []
  | c :: cs => if c.isWhitespace then dropWs cs else c :: cs

/-- Python `s.strip()`: remove leading and trailing whitespace. -/
def trimStr (s : String) : String :=
  String.mk ((dropWs (dropWs s.data).reverse).reverse)

/-- `isPref n h`: the char list `n` is a prefix of `h`. -/
def isPref : List Char → List Char → Bool
  | [], _ => true
  | _ :: _, [] => false
  | a :: as, b :: bs => a == b && isPref as bs

/-- `subCL n h`: the char list `n` occurs contiguously inside `h`
(Python `n in h` on strings). -/
def subCL (n : List Char) : List Char → Bool
  | [] => n.isEmpty
  | c :: cs => isPref n (c :: cs) || subCL n cs

/-- Python `pat in hay` on strings: contiguous substring containment. -/
def strContains (hay pat : String) : Bool :=
  subCL pat.data hay.data

/-- pandas `str.contains(pat, case=False)` for a metacharacter-free
pattern: case-insensitive substring containment. -/
def containsCI (hay pat : String) : Bool :=
  strContains (lowerStr hay) (lowerStr pat)

/-! ## Data model -/

/-- One DataFrame row with the canonical columns the core reads.  The twelve
textual columns are `TEXT_COL_CANDIDATES` of `app.py`; `blob` is the derived
`__blob` column, `displayName` the derived `__display_name` column, and the
three `Option Int` fields are the numeric eligibility columns (a `none` cell
models NaN). -/
structure Record where
  title : String := ""
  name : String := ""
  schemeName : String := ""
  description : String := ""
  eligibility : String := ""
  schemeCategory : String := ""
  category : String := ""
  level : String := ""
  state : String := ""
  department : String := ""
  tags : String := ""
  benefits : String := ""
  minAge : Option Int := none
  maxAge : Option Int := none
  incomeLimit : Option Int := none
  blob : String := ""
  displayName : String := ""
deriving DecidableEq

/-- The profile dict built in `app.py`.  `none` models a missing / `None`
entry; the app maps the "Any" selectbox choice of the state picker to `None`
before building the profile. -/
structure Profile where
  age : Option Int := none
  income : Option Int := none
  occupation : Option String := none
  education : Option String := none
  location : Option String := none
  category : Option String := none
deriving DecidableEq

/-! ## Schema normalizer (`_normalize_columns`) -/

/-- The values of the twelve `TEXT_COL_CANDIDATES` columns, in the order of
the Python list. -/
def textFields (r : Record) : List String :=
  [r.title, r.name, r.schemeName, r.description, r.eligibility,
   r.schemeCategory, r.category, r.level, r.state, r.department,
   r.tags, r.benefits]

/-- Python `" ".join(...)`. -/
def joinSp : List String → String
  | [] => ""
  | [s] => s
  | s :: rest => s ++ " " ++ joinSp rest

/-- The `__blob` column: space-joined textual columns, lowercased. -/
def mkBlob (r : Record) : String :=
  lowerStr (joinSp (textFields r))

/-- `_preferred_name`: the first of `schemeName`, `title`, `name` whose
trimmed value is non-empty, else the sentinel. -/
def preferredName (r : Record) : String :=
  if trimStr r.schemeName ≠ "" then trimStr r.schemeName
  else if trimStr r.title ≠ "" then trimStr r.title
  else if trimStr r.name ≠ "" then trimStr r.name
  else "Unnamed Scheme"

/-- Row-level effect of `_normalize_columns`: fill the derived
`__blob` and `__display_name` columns. -/
def normalizeRow (r : Record) : Record :=
  { r with blob := mkBlob r, displayName := preferredName r }

/-! ## Module-level pre-filters (lines 309–326 of `app.py`) -/

/-- Keep condition of the state filter: state contains the location, or
level contains "central" (both case-insensitively). -/
def locationKeep (loc : String) (r : Record) : Bool :=
  containsCI r.state loc || containsCI r.level "central"

/-- The state filter block: applied only when `profile["location"]` is
truthy. -/
def applyLocation (p : Profile) (rows : List Record) : List Record :=
  match p.location with
  | none => rows
  | some loc => if loc ≠ "" then rows.filter (locationKeep loc) else rows

/-- Keep condition of the category filter: lowercased eligibility or blob
contains the lowercased category keyword. -/
def categoryKeep (ck : String) (r : Record) : Bool :=
  strContains (lowerStr r.eligibility) ck || strContains r.blob ck

/-- The category filter block: applied only when `profile["category"]` is
truthy and not (case-insensitively) "any"; the keyword is
`profile["category"].lower()` (not trimmed). -/
def applyCategory (p : Profile) (rows : List Record) : List Record :=
  match p.category with
  | none => rows
  | some c =>
    if c ≠ "" ∧ lowerStr c ≠ "any" then rows.filter (categoryKeep (lowerStr c))
    else rows

/-- The keyword-search block: applied only when the query is truthy and its
trimmed form is non-empty; keeps rows whose blob contains the trimmed,
lowercased query. -/
def applySearch (q : String) (rows : List Record) : List Record :=
  if q ≠ "" ∧ trimStr q ≠ "" then
    rows.filter (fun r => strContains r.blob (lowerStr (trimStr q)))
  else rows

/-! ## Numeric filters (`_apply_numeric_filters`) -/

/-- `_apply_numeric_filters`: when `age` is set, filter on
`minAge.fillna(-1) <= age` then on `maxAge.fillna(10**9) >= age`; when
`income` is set, filter on `incomeLimit.fillna(10**12) >= income`. -/
def applyNumericFilters (p : Profile) (rows : List Record) : List Record :=
  let afterAge :=
    match p.age with
    | none => rows
    | some a =>
      ((rows.filter (fun r => r.minAge.getD (-1) ≤ a)).filter
        (fun r => r.maxAge.getD (10 ^ 9) ≥ a))
  match p.income with
  | none => afterAge
  | some i => afterAge.filter (fun r => r.incomeLimit.getD (10 ^ 12) ≥ i)

/-! ## Scorer (`_keywords_from_profile`, `_score_rows`) -/

/-- `_keywords_from_profile`: the trimmed, lowercased values of occupation,
education, location, category that are truthy and not "any" after
normalization. -/
def keywordsFromProfile (p : Profile) : List String :=
  ([p.occupation, p.education, p.location, p.category].filterMap
    (fun v =>
      match v with
      | none => none
      | some t =>
        let s := lowerStr (trimStr t)
        if s ≠ "" ∧ s ≠ "any" then some s else none))

/-- Keyword pass of `_score_rows`: +2 per profile keyword found in the
blob. -/
def keywordScore (p : Profile) (r : Record) : Nat :=
  2 * ((keywordsFromProfile p).filter (fun kw => strContains r.blob kw)).length

/-- Occupation boost of `_score_rows`: +5 for a blob hit of the trimmed,
lowercased occupation, and +3 for each of eligibility, schemeCategory,
description (lowercased) containing it; guarded by the occupation being
truthy and not (case-insensitively) "any".  The hits here are the
substring idealization of the code's regex-based `str.contains`; it is
extensionally exact for metacharacter-free keywords only (see `occBoostRe`
for the regex semantics, which diverges at keywords such as
"professional (doctor)"). -/
def occBoost (p : Profile) (r : Record) : Nat :=
  match p.occupation with
  | none => 0
  | some occ =>
    if occ ≠ "" ∧ lowerStr occ ≠ "any" then
      let k := lowerStr (trimStr occ)
      (if strContains r.blob k then 5 else 0)
      + (if strContains (lowerStr r.eligibility) k then 3 else 0)
      + (if strContains (lowerStr r.schemeCategory) k then 3 else 0)
      + (if strContains (lowerStr r.description) k then 3 else 0)
    else 0

/-- Category boost of `_score_rows`: +3 for a blob hit, +2 for an
eligibility hit. -/
def catBoost (p : Profile) (r : Record) : Nat :=
  match p.category with
  | none => 0
  | some c =>
    if c ≠ "" ∧ lowerStr c ≠ "any" then
      let k := lowerStr (trimStr c)
      (if strContains r.blob k then 3 else 0)
      + (if strContains (lowerStr r.eligibility) k then 2 else 0)
    else 0

/-- Education boost of `_score_rows`: +2 for a blob hit, +1 for an
eligibility hit. -/
def eduBoost (p : Profile) (r : Record) : Nat :=
  match p.education with
  | none => 0
  | some e =>
    if e ≠ "" ∧ lowerStr e ≠ "any" then
      let k := lowerStr (trimStr e)
      (if strContains r.blob k then 2 else 0)
      + (if strContains (lowerStr r.eligibility) k then 1 else 0)
    else 0

/-- The `__score` column of `_score_rows` for one row. -/
def scoreRow (p : Profile) (r : Record) : Nat :=
  keywordScore p r + occBoost p r + catBoost p r + eduBoost p r

/-! ## Ranker (`recommend`) -/

/-- pandas `Series.max()` restricted to the non-NaN case: `none` on the
empty series (where pandas yields NaN, which compares unequal to 0). -/
def listMax? : List Nat → Option Nat
  | [] => none
  | a :: as =>
    some (match listMax? as with
          | none => a
          | some m => max a m)

/-- Sort key of `sort_values(["__score", "__display_name"],
ascending=[False, True])`: higher score first, display name ascending on
ties. -/
def scoredLe (a b : Record × Nat) : Bool :=
  b.2 < a.2 || (a.2 == b.2 && (a.1.displayName < b.1.displayName
    || a.1.displayName == b.1.displayName))

/-- Insertion step of the sort. -/
def insertScored (a : Record × Nat) : List (Record × Nat) → List (Record × Nat)
  | [] => [a]
  | b :: bs => if scoredLe a b then a :: b :: bs else b :: insertScored a bs

/-- Sorting by `(score desc, displayName asc)`.  (pandas uses an unstable
quicksort; no claim below depends on the relative order of rows that tie on
both keys.) -/
def sortScored : List (Record × Nat) → List (Record × Nat)
  | [] => []
  | a :: as => insertScored a (sortScored as)

/-- `recommend`: numeric filters, scoring, then either the all-zero
fallback (`head(limit)` in pre-scoring order) or sort-and-truncate.  On an
empty scored set pandas' `max()` is NaN, which fails the `== 0` test, so the
sort branch is taken there (both branches yield `[]`). -/
def recommend (p : Profile) (rows : List Record) (limit : Nat) :
    List (Record × Nat) :=
  let filtered := applyNumericFilters p rows
  let scored := filtered.map (fun r => (r, scoreRow p r))
  match listMax? (scored.map (fun x => x.2)) with
  | some 0 => scored.take limit
  | _ => (sortScored scored).take limit

/-- The full module-level pipeline of `app.py`: state filter, category
filter, keyword search, then `recommend`. -/
def pipeline (p : Profile) (q : String) (rows : List Record) (limit : Nat) :
    List (Record × Nat) :=
  recommend p (applySearch q (applyCategory p (applyLocation p rows))) limit

/-! ## Regex model of pandas `str.contains`

`Series.str.contains(pat)` compiles `pat` with Python's `re` module
(`regex=True` is the default) and runs `re.search`.  We model the fragment
of `re` syntax needed to settle the claims: literal characters, the `.`
wildcard (any character except a newline) and grouping parentheses, which
with no quantifiers present match exactly their contents.  Any other
metacharacter is outside the modelled subset and makes the parser reject
the pattern; an unbalanced parenthesis is a genuine `re.error`. -/

/-- One regex atom of the modelled subset. -/
inductive Atom where
  | lit : Char → Atom
  | dot : Atom
deriving DecidableEq

/-- Python `re` metacharacters. -/
def isMeta (c : Char) : Bool :=
  c == '.' || c == '^' || c == '$' || c == '*' || c == '+' || c == '?' ||
  c == '[' || c == ']' || c == '\\' || c == '|' || c == '(' || c == ')' ||
  c == Char.ofNat 123 || c == Char.ofNat 125

/-- Pattern scanner; the `Nat` argument is the open-parenthesis depth.
Unbalanced parentheses (a real `re.error`) and metacharacters outside the
modelled subset yield `none`. -/
def regexParseAux : List Char → Nat → Option (List Atom)
  | [], 0 => some []
  | [], _ + 1 => none
  | c :: rest, d =>
    if c = '(' then regexParseAux rest (d + 1)
    else if c = ')' then
      match d with
      | 0 => none
      | d' + 1 => regexParseAux rest d'
    else if c = '.' then (regexParseAux rest d).map (fun p => Atom.dot :: p)
    else if isMeta c then none
    else (regexParseAux rest d).map (fun p => Atom.lit c :: p)

/-- Compile a pattern string. -/
def regexParse (s : String) : Option (List Atom) :=
  regexParseAux s.data 0

/-- Whether one atom matches one character (`.` matches anything except a
newline, as in Python without `DOTALL`). -/
def atomMatch : Atom → Char → Bool
  | .lit d, c => d == c
  | .dot, c => !(c == '\n')

/-- Whether the pattern matches a prefix of the text. -/
def matchesAt : List Atom → List Char → Bool
  | [], _ => true
  | _ :: _, [] => false
  | a :: ps, c :: cs => atomMatch a c && matchesAt ps cs

/-- `re.search`: the pattern matches starting at some position. -/
def searchFrom (p : List Atom) : List Char → Bool
  | [] => matchesAt p []
  | c :: cs => matchesAt p (c :: cs) || searchFrom p cs

/-- `re.search` over strings. -/
def reSearch (p : List Atom) (s : String) : Bool :=
  searchFrom p s.data

/-- One `str.contains(pat)` cell test with the regex semantics pandas
actually uses: compiling the pattern can raise `re.error`. -/
def reSearchChecked (pat text : String) : Except String Bool :=
  match regexParse pat with
  | none => Except.error "re.error"
  | some p => Except.ok (reSearch p text)

/-- The keyword-search block under the regex semantics of
`str.contains`: an uncompilable query makes the block raise instead of
returning a filtered table. -/
def applySearchRe (q : String) (rows : List Record) :
    Except String (List Record) :=
  if q ≠ "" ∧ trimStr q ≠ "" then
    match regexParse (lowerStr (trimStr q)) with
    | none => Except.error "re.error"
    | some p => Except.ok (rows.filter (fun r => reSearch p r.blob))
  else Except.ok rows

/-- Occupation boost of `_score_rows` under the regex semantics pandas
actually uses: compile the trimmed, lowercased occupation keyword and add
5 for a blob match plus 3 for each of eligibility, schemeCategory and
description (lowercased) that the pattern matches; a keyword that fails to
compile (`re.error`) propagates as an error. -/
def occBoostRe (p : Profile) (r : Record) : Except String Nat :=
  match p.occupation with
  | none => Except.ok 0
  | some occ =>
    if occ ≠ "" ∧ lowerStr occ ≠ "any" then
      match regexParse (lowerStr (trimStr occ)) with
      | none => Except.error "re.error"
      | some pt => Except.ok
          ((if reSearch pt r.blob then 5 else 0)
           + (if reSearch pt (lowerStr r.eligibility) then 3 else 0)
           + (if reSearch pt (lowerStr r.schemeCategory) then 3 else 0)
           + (if reSearch pt (lowerStr r.description) then 3 else 0))
    else Except.ok 0

/-! ## Definitions following the spec's words (for refinement claims) -/

/-- Modelled from the spec: the occupation boost exactly as claim C1 words
it — 6 for a blob hit of the occupation keyword, plus 3 for each of
eligibility, schemeCategory (category tag) and description containing it. -/
def occBoostClaimed (k : String) (r : Record) : Nat :=
  (if strContains r.blob k then 6 else 0)
  + (if strContains (lowerStr r.eligibility) k then 3 else 0)
  + (if strContains (lowerStr r.schemeCategory) k then 3 else 0)
  + (if strContains (lowerStr r.description) k then 3 else 0)

/-- The occupation boost the code implements, with the guard discharged:
5 for a blob hit plus 3 per matching field (amended form of claim C1). -/
def occBoostAmended (k : String) (r : Record) : Nat :=
  (if strContains r.blob k then 5 else 0)
  + (if strContains (lowerStr r.eligibility) k then 3 else 0)
  + (if strContains (lowerStr r.schemeCategory) k then 3 else 0)
  + (if strContains (lowerStr r.description) k then 3 else 0)

/-- Modelled from the spec: the location keep condition exactly as claim C3
words it — state contains the location, or level contains one of
"central", "national", "all india" (case-insensitively). -/
def locationKeepClaimed (loc : String) (r : Record) : Bool :=
  containsCI r.state loc || containsCI r.level "central"
    || containsCI r.level "national" || containsCI r.level "all india"

/-! ## Helper lemmas -/

theorem isPref_self_append (n t : List Char) : isPref n (n ++ t) = true := by
  induction n with
  | nil => rfl
  | cons a as ih => simp [isPref, ih]

theorem subCL_of_isPref {n h : List Char} (hp : isPref n h = true) :
    subCL n h = true := by
  cases h with
  | nil =>
    cases n with
    | nil => rfl
    | cons a as => simp [isPref] at hp
  | cons c cs => simp [subCL, hp]

theorem subCL_append_left {n h : List Char} (g : List Char)
    (hs : subCL n h = true) : subCL n (g ++ h) = true := by
  induction g with
  | nil => simpa using hs
  | cons c cs ih => simp [subCL, ih]

theorem subCL_self_append (n t : List Char) : subCL n (n ++ t) = true :=
  subCL_of_isPref (isPref_self_append n t)

theorem length_insertScored (a : Record × Nat) (l : List (Record × Nat)) :
    (insertScored a l).length = l.length + 1 := by
  induction l with
  | nil => rfl
  | cons b bs ih => by_cases h : scoredLe a b <;> simp [insertScored, h, ih]

theorem length_sortScored (l : List (Record × Nat)) :
    (sortScored l).length = l.length := by
  induction l with
  | nil => rfl
  | cons a as ih => simp [sortScored, length_insertScored, ih]

theorem listMax?_of_all_zero (l : List Nat) (hne : l ≠ [])
    (hz : ∀ x ∈ l, x = 0) : listMax? l = some 0 := by
  induction l with
  | nil => exact absurd rfl hne
  | cons a as ih =>
    have ha : a = 0 := hz a (List.mem_cons_self _ _)
    cases as with
    | nil => simp [listMax?, ha]
    | cons b bs =>
      have h2 : listMax? (b :: bs) = some 0 :=
        ih (by simp) (fun x hx => hz x (List.mem_cons_of_mem _ hx))
      have h3 : listMax? (a :: b :: bs)
          = some (match listMax? (b :: bs) with
                  | none => a
                  | some m => max a m) := rfl
      rw [h3, h2, ha]
      simp

theorem recommend_length (p : Profile) (rows : List Record) (limit : Nat) :
    (recommend p rows limit).length
      = min limit (applyNumericFilters p rows).length := by
  unfold recommend
  dsimp only
  split <;> simp [length_sortScored]

theorem length_applyNumericFilters_le (p : Profile) (rows : List Record) :
    (applyNumericFilters p rows).length ≤ rows.length := by
  unfold applyNumericFilters
  cases p.age <;> cases p.income <;> dsimp only <;>
    first
      | exact le_refl _
      | exact List.length_filter_le _ _
      | exact le_trans (List.length_filter_le _ _) (List.length_filter_le _ _)
      | exact le_trans (List.length_filter_le _ _)
          (le_trans (List.length_filter_le _ _) (List.length_filter_le _ _))

theorem regexParseAux_litfree (l : List Char) (hm : ∀ c ∈ l, isMeta c = false) :
    regexParseAux l 0 = some (l.map Atom.lit) := by
  induction l with
  | nil => rfl
  | cons c rest ih =>
    have hc : isMeta c = false := hm c (List.mem_cons_self _ _)
    have h1 : c ≠ '(' := by
      intro h; subst h
      have ht : isMeta '(' = true := by decide
      rw [ht] at hc; exact Bool.noConfusion hc
    have h2 : c ≠ ')' := by
      intro h; subst h
      have ht : isMeta ')' = true := by decide
      rw [ht] at hc; exact Bool.noConfusion hc
    have h3 : c ≠ '.' := by
      intro h; subst h
      have ht : isMeta '.' = true := by decide
      rw [ht] at hc; exact Bool.noConfusion hc
    simp [regexParseAux, h1, h2, h3, hc,
      ih (fun x hx => hm x (List.mem_cons_of_mem _ hx))]

theorem matchesAt_lit (n : List Char) : ∀ h : List Char,
    matchesAt (n.map Atom.lit) h = isPref n h := by
  induction n with
  | nil => intro h; cases h <;> rfl
  | cons a as ih =>
    intro h
    cases h with
    | nil => rfl
    | cons b bs => simp [matchesAt, isPref, atomMatch, ih]

theorem searchFrom_lit (n h : List Char) :
    searchFrom (n.map Atom.lit) h = subCL n h := by
  induction h with
  | nil => cases n <;> rfl
  | cons c cs ih => simp [searchFrom, subCL, matchesAt_lit, ih]

theorem regexParse_litfree (k : String)
    (hm : ∀ c ∈ k.data, isMeta c = false) :
    regexParse k = some (k.data.map Atom.lit) :=
  regexParseAux_litfree k.data hm

theorem reSearch_lit (k t : String) :
    reSearch (k.data.map Atom.lit) t = strContains t k :=
  searchFrom_lit k.data t.data

theorem subCL_lower_join {f : String} {l : List String} (hf : f ∈ l) :
    subCL (f.data.map Char.toLower) ((joinSp l).data.map Char.toLower)
      = true := by
  induction l with
  | nil => cases hf
  | cons a rest ih =>
    cases rest with
    | nil =>
      have hfa : f = a := by simpa using hf
      subst hfa
      have : (joinSp [f]).data = f.data := rfl
      rw [this]
      simpa using subCL_self_append (f.data.map Char.toLower) []
    | cons b bs =>
      have hjoin : (joinSp (a :: b :: bs)).data
          = (a.data ++ [' ']) ++ (joinSp (b :: bs)).data := by
        show ((a ++ " ") ++ joinSp (b :: bs)).data = _
        rw [String.data_append, String.data_append]
      rcases List.mem_cons.mp hf with h | h
      · subst h
        rw [hjoin, List.map_append, List.map_append, List.append_assoc]
        exact subCL_self_append (f.data.map Char.toLower) _
      · rw [hjoin, List.map_append]
        exact subCL_append_left _ (ih h)

/-! ## Claims -/

/-- C1 (counterexample): under the regex semantics the code actually runs,
the occupation boost adds 5, not 6, for a blob hit — on a record matching
only in the blob the boost is 5 where the claim's formula gives 6, and on
a record matching in the blob and in all three of eligibility, category
tag and description the boost is 14, not the claimed maximum 15.  The
keyword "farmer" is metacharacter-free, so the regex check coincides with
the claim's substring reading at this input. -/
theorem claim_c1_cex :
    occBoostRe { occupation := some "Farmer" }
        { blob := "farmer subsidy income" } = Except.ok 5
    ∧ occBoostClaimed "farmer" { blob := "farmer subsidy income" } = 6
    ∧ occBoostRe { occupation := some "Farmer" }
        { blob := "farmer aid", eligibility := "Farmer",
          schemeCategory := "Farmer welfare",
          description := "Aid for every farmer" } = Except.ok 14
    ∧ occBoostClaimed "farmer"
        { blob := "farmer aid", eligibility := "Farmer",
          schemeCategory := "Farmer welfare",
          description := "Aid for every farmer" } = 15 :=
  ⟨rfl, by decide, rfl, by decide⟩

/-- C1 (amended): for every profile whose occupation is set, non-empty,
not "any" (case-insensitively), and whose trimmed lowercased keyword
contains no regex metacharacter, the scorer's occupation boost — a regex
search under pandas' default — adds 5 when the keyword occurs in the
search blob, plus 3 for each of eligibility text, category tag and
description independently containing it, so the boost contributes at most
5 + 3×3 = 14; the substring-model boost used by the score pipeline agrees
with the regex semantics under this hypothesis, and the total score
decomposes as keyword pass + occupation boost + category boost + education
boost.  (For metacharacter-bearing occupations such as
"Professional (Doctor)" the checks are regex matches and can diverge from
substring occurrence; see C9.) -/
theorem claim_c1 (p : Profile) (r : Record) (occ : String)
    (h1 : p.occupation = some occ) (h2 : occ ≠ "")
    (h3 : lowerStr occ ≠ "any")
    (h4 : ∀ c ∈ (lowerStr (trimStr occ)).data, isMeta c = false) :
    occBoostRe p r = Except.ok (occBoostAmended (lowerStr (trimStr occ)) r)
    ∧ occBoost p r = occBoostAmended (lowerStr (trimStr occ)) r
    ∧ occBoostAmended (lowerStr (trimStr occ)) r ≤ 14
    ∧ scoreRow p r
      = keywordScore p r + occBoost p r + catBoost p r + eduBoost p r := by
  have hre : occBoostRe p r
      = Except.ok (occBoostAmended (lowerStr (trimStr occ)) r) := by
    simp [occBoostRe, occBoostAmended, h1, h2, h3,
      regexParse_litfree _ h4, reSearch_lit]
  have hocc : occBoost p r = occBoostAmended (lowerStr (trimStr occ)) r := by
    simp [occBoost, occBoostAmended, h1, h2, h3]
  refine ⟨hre, hocc, ?_, rfl⟩
  unfold occBoostAmended
  split <;> split <;> split <;> split <;> decide

/-- C1 (witness): the amended statement at a concrete profile and record
with the metacharacter-free keyword "farmer". -/
theorem claim_c1_witness :
    occBoostRe { occupation := some "Farmer" }
        { blob := "farmer subsidy income", eligibility := "Farmers only" }
      = Except.ok (occBoostAmended (lowerStr (trimStr "Farmer"))
          { blob := "farmer subsidy income", eligibility := "Farmers only" })
    ∧ occBoost { occupation := some "Farmer" }
        { blob := "farmer subsidy income", eligibility := "Farmers only" }
      = occBoostAmended (lowerStr (trimStr "Farmer"))
        { blob := "farmer subsidy income", eligibility := "Farmers only" }
    ∧ occBoostAmended (lowerStr (trimStr "Farmer"))
        { blob := "farmer subsidy income", eligibility := "Farmers only" }
        ≤ 14
    ∧ scoreRow { occupation := some "Farmer" }
        { blob := "farmer subsidy income", eligibility := "Farmers only" }
      = keywordScore { occupation := some "Farmer" }
          { blob := "farmer subsidy income", eligibility := "Farmers only" }
        + occBoost { occupation := some "Farmer" }
          { blob := "farmer subsidy income", eligibility := "Farmers only" }
        + catBoost { occupation := some "Farmer" }
          { blob := "farmer subsidy income", eligibility := "Farmers only" }
        + eduBoost { occupation := some "Farmer" }
          { blob := "farmer subsidy income", eligibility := "Farmers only" } :=
  claim_c1 _ _ "Farmer" rfl (by decide) (by decide) (by decide)

/-- C3 (counterexample): the state filter's nationwide fallback only
checks for "central" in the level field — a record with empty state and
level "All India" is dropped for a Kerala profile, though the claim says it
is kept. -/
theorem claim_c3_cex :
    locationKeep "Kerala" { state := "", level := "All India" } = false
    ∧ locationKeepClaimed "Kerala" { state := "", level := "All India" }
      = true := by
  decide

/-- C3 (amended): for every profile whose location is set (the app maps
the "Any" choice to an unset location before this point), the state filter
keeps a record iff its state contains the location case-insensitively OR
its level contains "central" case-insensitively; "national" and
"all india" are not consulted. -/
theorem claim_c3 (p : Profile) (loc : String) (rows : List Record)
    (r : Record) (h1 : p.location = some loc) (h2 : loc ≠ "") :
    r ∈ applyLocation p rows ↔ r ∈ rows
      ∧ (containsCI r.state loc = true
         ∨ containsCI r.level "central" = true) := by
  simp [applyLocation, h1, h2, List.mem_filter, locationKeep]

/-- C3 (witness): Scenario E — a Kerala-state record and an empty-state
record with a "Central Government Scheme" level are both kept for a Kerala
profile. -/
theorem claim_c3_witness :
    (({ state := "Kerala" } : Record) ∈
        applyLocation { location := some "Kerala" }
          [{ state := "Kerala" },
           { state := "", level := "Central Government Scheme" }]
      ↔ ({ state := "Kerala" } : Record) ∈
          ([{ state := "Kerala" },
            { state := "", level := "Central Government Scheme" }] :
            List Record)
        ∧ (containsCI "Kerala" "Kerala" = true
           ∨ containsCI "" "central" = true))
    ∧ applyLocation { location := some "Kerala" }
        [{ state := "Kerala" },
         { state := "", level := "Central Government Scheme" }]
      = [{ state := "Kerala" },
         { state := "", level := "Central Government Scheme" }] :=
  ⟨claim_c3 _ "Kerala" _ _ rfl (by decide), by decide⟩

/-- C4 (code bug): pandas `str.contains` compiles the free-text search
keyword as a regular expression, so the query "(" makes the search filter
raise `re.error` instead of returning a result, contradicting the claim
that no §3-shaped input makes the core raise. -/
theorem claim_c4_bug :
    applySearchRe "(" [{ blob := "farmer subsidy" }]
      = Except.error "re.error"
    ∧ reSearchChecked "(" "farmer subsidy" = Except.error "re.error" :=
  ⟨rfl, rfl⟩

/-- C7: for every profile whose category is set, non-empty and not "any"
(case-insensitively), the category filter keeps a record iff its
lowercased eligibility text or its search blob contains the lowercased
category keyword. -/
theorem claim_c7 (p : Profile) (c : String) (rows : List Record)
    (r : Record) (h1 : p.category = some c) (h2 : c ≠ "")
    (h3 : lowerStr c ≠ "any") :
    r ∈ applyCategory p rows ↔ r ∈ rows
      ∧ (strContains (lowerStr r.eligibility) (lowerStr c) = true
         ∨ strContains r.blob (lowerStr c) = true) := by
  simp [applyCategory, h1, h2, h3, List.mem_filter, categoryKeep]

/-- C7 (witness): Scenario D — with category "SC", a record whose
eligibility mentions SC/ST is kept and a record with empty eligibility and
no "sc" in its blob is excluded. -/
theorem claim_c7_witness :
    (({ eligibility := "Open to SC/ST applicants" } : Record) ∈
        applyCategory { category := some "SC" }
          [{ eligibility := "Open to SC/ST applicants" },
           { eligibility := "", blob := "education loan" }]
      ↔ ({ eligibility := "Open to SC/ST applicants" } : Record) ∈
          ([{ eligibility := "Open to SC/ST applicants" },
            { eligibility := "", blob := "education loan" }] : List Record)
        ∧ (strContains (lowerStr "Open to SC/ST applicants") (lowerStr "SC")
             = true
           ∨ strContains "" (lowerStr "SC") = true))
    ∧ applyCategory { category := some "SC" }
        [{ eligibility := "Open to SC/ST applicants" },
         { eligibility := "", blob := "education loan" }]
      = [{ eligibility := "Open to SC/ST applicants" }] :=
  ⟨claim_c7 _ "SC" _ _ rfl (by decide) (by decide), by decide⟩

/-- C8: for every record and every canonical textual column, the
lowercased column value is a substring of the search blob built by
normalization. -/
theorem claim_c8 (r : Record) (f : String) (hf : f ∈ textFields r) :
    strContains (normalizeRow r).blob (lowerStr f) = true :=
  subCL_lower_join hf

/-- C8 (witness): the blob-superset property at a concrete record and
field. -/
theorem claim_c8_witness :
    strContains
      (normalizeRow { title := "Kisan Aid", eligibility := "Farmers Only" }).blob
      (lowerStr "Farmers Only") = true :=
  claim_c8 _ "Farmers Only" (by decide)

/-- C9 (counterexample): the containment checks are regex searches, not
plain substring tests — the keyword "c.t" matches the text "cat" although
it is not a literal substring of it, and the keyword
"professional (doctor)" fails to match a text that literally contains
it. -/
theorem claim_c9_cex :
    reSearchChecked "c.t" "cat" = Except.ok true
    ∧ strContains "cat" "c.t" = false
    ∧ reSearchChecked "professional (doctor)" "professional (doctor)"
      = Except.ok false
    ∧ strContains "professional (doctor)" "professional (doctor)" = true :=
  ⟨rfl, by decide, rfl, by decide⟩

/-- C9 (amended): every containment check compiles the keyword as a regex
(pandas `regex=True` default); for keywords containing no regex
metacharacter the outcome equals literal substring containment of the
keyword in the tested text, and keywords with metacharacters can
diverge. -/
theorem claim_c9 (pat text : String)
    (hm : ∀ c ∈ pat.data, isMeta c = false) :
    reSearchChecked pat text = Except.ok (strContains text pat) := by
  unfold reSearchChecked regexParse
  rw [regexParseAux_litfree pat.data hm]
  show Except.ok (reSearch (pat.data.map Atom.lit) text)
    = Except.ok (strContains text pat)
  exact congrArg Except.ok (searchFrom_lit pat.data text.data)

/-- C9 (witness): the regex check and the substring test agree on the
metacharacter-free keyword "farmer". -/
theorem claim_c9_witness :
    reSearchChecked "farmer" "a farmer subsidy"
      = Except.ok (strContains "a farmer subsidy" "farmer") :=
  claim_c9 "farmer" "a farmer subsidy" (by decide)

/-- C10: `recommend` applies only the numeric filters — a record that
fails the location, category and free-text-search predicates of the
profile is still returned by a direct call to `recommend`, while the
module-level pipeline (which applies those predicates before calling
`recommend`) excludes it. -/
theorem claim_c10 :
    locationKeep "Kerala"
        { state := "Punjab", level := "State", blob := "farmer subsidy" }
      = false
    ∧ categoryKeep (lowerStr "SC")
        { state := "Punjab", level := "State", blob := "farmer subsidy" }
      = false
    ∧ strContains
        ({ state := "Punjab", level := "State",
           blob := "farmer subsidy" } : Record).blob
        (lowerStr (trimStr "xyz")) = false
    ∧ recommend
        { occupation := some "Farmer", category := some "SC",
          location := some "Kerala" }
        [{ state := "Punjab", level := "State", blob := "farmer subsidy" }] 5
      = [({ state := "Punjab", level := "State",
            blob := "farmer subsidy" }, 7)]
    ∧ pipeline
        { occupation := some "Farmer", category := some "SC",
          location := some "Kerala" } "xyz"
        [{ state := "Punjab", level := "State", blob := "farmer subsidy" }] 5
      = [] := by
  decide

/-- C2 (counterexample): a record lacking all numeric bounds can still be
excluded — the fillna sentinels (-1, 10^9, 10^12) behave as real bounds,
so an age of -2 (below -1), an age above 10^9, or an income above 10^12
excludes a bound-free record. -/
theorem claim_c2_cex :
    applyNumericFilters { age := some (-2) } [{ }] = ([] : List Record)
    ∧ applyNumericFilters { income := some (2 * 10 ^ 12) } [{ }]
      = ([] : List Record)
    ∧ applyNumericFilters { age := some (2 * 10 ^ 9) } [{ }]
      = ([] : List Record) := by
  decide

/-- C2 (amended): provided the profile's age (when set) lies in
[-1, 10^9] and its income (when set) is at most 10^12 — the ranges where
the fillna sentinels are inert — a record passes the numeric filters iff
each present bound is respected: minAge ≤ age, age ≤ maxAge,
income ≤ incomeLimit; a record lacking a bound is not excluded by that
side.  Outside those ranges a missing bound behaves as the sentinel value
(-1, 10^9 or 10^12 respectively). -/
theorem claim_c2 (p : Profile) (rows : List Record) (r : Record)
    (ha : ∀ a, p.age = some a → -1 ≤ a ∧ a ≤ 10 ^ 9)
    (hi : ∀ i, p.income = some i → i ≤ 10 ^ 12) :
    r ∈ applyNumericFilters p rows ↔ r ∈ rows
      ∧ (∀ a m, p.age = some a → r.minAge = some m → m ≤ a)
      ∧ (∀ a m, p.age = some a → r.maxAge = some m → a ≤ m)
      ∧ (∀ i m, p.income = some i → r.incomeLimit = some m → i ≤ m) := by
  unfold applyNumericFilters
  cases hpa : p.age with
  | none =>
    cases hpi : p.income with
    | none => simp
    | some i =>
      have hii := hi i hpi
      norm_num at hii
      cases hm : r.incomeLimit <;> simp [List.mem_filter, hm, hii] <;>
        intros <;> omega
  | some a =>
    obtain ⟨ha1, ha2⟩ := ha a hpa
    norm_num at ha2
    cases hpi : p.income with
    | none =>
      cases hmin : r.minAge <;> cases hmax : r.maxAge <;>
        simp [List.mem_filter, hmin, hmax, ha1, ha2] <;>
        intros <;> omega
    | some i =>
      have hii := hi i hpi
      norm_num at hii
      cases hmin : r.minAge <;> cases hmax : r.maxAge <;>
        cases hm : r.incomeLimit <;>
        simp [List.mem_filter, hmin, hmax, hm, ha1, ha2, hii] <;>
        intros <;> omega

/-- C2 (witness): the amended statement at a concrete profile and
record table. -/
theorem claim_c2_witness :
    ({ minAge := some 18, maxAge := some 60,
       incomeLimit := some 200000 } : Record) ∈
      applyNumericFilters { age := some 30, income := some 100000 }
        [{ minAge := some 18, maxAge := some 60,
           incomeLimit := some 200000 }]
    ↔ ({ minAge := some 18, maxAge := some 60,
         incomeLimit := some 200000 } : Record) ∈
        ([{ minAge := some 18, maxAge := some 60,
            incomeLimit := some 200000 }] : List Record)
      ∧ (∀ a m, (some 30 : Option Int) = some a →
          (some 18 : Option Int) = some m → m ≤ a)
      ∧ (∀ a m, (some 30 : Option Int) = some a →
          (some 60 : Option Int) = some m → a ≤ m)
      ∧ (∀ i m, (some 100000 : Option Int) = some i →
          (some 200000 : Option Int) = some m → i ≤ m) :=
  claim_c2 _ _ _
    (fun a h => by injection h with h; subst h; constructor <;> decide)
    (fun i h => by injection h with h; subst h; decide)

/-- C5 (counterexample): with two zero-scoring records of which the first
is excluded by the age filter, the fallback returns the surviving record
only — not the first min(limit, table size) records of the table. -/
theorem claim_c5_cex :
    scoreRow { age := some 50 } { maxAge := some 25, displayName := "Y" } = 0
    ∧ scoreRow { age := some 50 } { displayName := "Z" } = 0
    ∧ recommend { age := some 50 }
        [{ maxAge := some 25, displayName := "Y" }, { displayName := "Z" }] 2
      = [({ displayName := "Z" }, 0)]
    ∧ (recommend { age := some 50 }
        [{ maxAge := some 25, displayName := "Y" },
         { displayName := "Z" }] 2).length
      ≠ min 2 ([{ maxAge := some 25, displayName := "Y" },
          { displayName := "Z" }] : List Record).length := by
  decide

/-- C5 (amended): whenever the numerically filtered table is non-empty and
every surviving record scores 0, `recommend` returns the first
min(limit, filtered size) surviving records in their pre-scoring order — a
non-empty sequence for limit ≥ 1 — rather than an empty result. -/
theorem claim_c5 (p : Profile) (rows : List Record) (limit : Nat)
    (hne : applyNumericFilters p rows ≠ [])
    (hz : ∀ r ∈ applyNumericFilters p rows, scoreRow p r = 0)
    (hl : 1 ≤ limit) :
    recommend p rows limit
      = ((applyNumericFilters p rows).map (fun r => (r, 0))).take limit
    ∧ recommend p rows limit ≠ [] := by
  have hmap : (applyNumericFilters p rows).map (fun r => (r, scoreRow p r))
      = (applyNumericFilters p rows).map (fun r => (r, 0)) :=
    List.map_congr_left (fun r hr => by rw [hz r hr])
  have hmax : listMax?
      (((applyNumericFilters p rows).map (fun r => (r, scoreRow p r))).map
        (fun x => x.2)) = some 0 := by
    rw [hmap, List.map_map]
    refine listMax?_of_all_zero _ (by simpa using hne) ?_
    intro x hx
    simp at hx
    obtain ⟨r, _, hx2⟩ := hx
    omega
  have hrec : recommend p rows limit
      = match listMax?
          (((applyNumericFilters p rows).map
            (fun r => (r, scoreRow p r))).map (fun x => x.2)) with
        | some 0 => ((applyNumericFilters p rows).map
            (fun r => (r, scoreRow p r))).take limit
        | _ => (sortScored ((applyNumericFilters p rows).map
            (fun r => (r, scoreRow p r)))).take limit := rfl
  constructor
  · rw [hrec, hmax]
    dsimp only
    rw [hmap]
  · intro hcon
    have hlen := recommend_length p rows limit
    rw [hcon] at hlen
    have hpos : 0 < (applyNumericFilters p rows).length :=
      List.length_pos.mpr hne
    simp at hlen
    omega

/-- C5 (witness): Scenario C — two zero-scoring records under an
occupation-"Any" profile and limit 1 yield exactly the first record. -/
theorem claim_c5_witness :
    recommend { occupation := some "Any" }
        [{ displayName := "A" }, { displayName := "B" }] 1
      = ((applyNumericFilters { occupation := some "Any" }
          [{ displayName := "A" }, { displayName := "B" }]).map
          (fun r => (r, 0))).take 1
    ∧ recommend { occupation := some "Any" }
        [{ displayName := "A" }, { displayName := "B" }] 1 ≠ [] :=
  claim_c5 _ _ 1 (by decide) (by decide) (by decide)

/-- C6 (counterexample): on the empty table with limit 1 the result is
empty, so the unconditional "length ≥ 1 whenever limit ≥ 1" part of the
claim fails (it also contradicts the claim's own upper bound
min(limit, 0) = 0). -/
theorem claim_c6_cex :
    recommend { } ([] : List Record) 1 = []
    ∧ ¬ 1 ≤ (recommend { } ([] : List Record) 1).length := by
  decide

/-- C6 (amended): for 1 ≤ limit ≤ 50 the result length is at most
min(limit, number of input records), and is at least 1 whenever the
numeric filters leave at least one record. -/
theorem claim_c6 (p : Profile) (rows : List Record) (limit : Nat)
    (h1 : 1 ≤ limit) (h2 : limit ≤ 50) :
    (recommend p rows limit).length ≤ min limit rows.length
    ∧ (applyNumericFilters p rows ≠ [] →
        1 ≤ (recommend p rows limit).length) := by
  have hlen := recommend_length p rows limit
  constructor
  · rw [hlen]
    exact min_le_min (le_refl limit) (length_applyNumericFilters_le p rows)
  · intro hne
    rw [hlen]
    exact le_min h1 (List.length_pos.mpr hne)

/-- C6 (witness): the amended bounds at a concrete profile and
one-record table. -/
theorem claim_c6_witness :
    (recommend { age := some 30 } [{ minAge := some 18 }] 5).length
      ≤ min 5 ([{ minAge := some 18 }] : List Record).length
    ∧ (applyNumericFilters { age := some 30 } [{ minAge := some 18 }] ≠ [] →
        1 ≤ (recommend { age := some 30 } [{ minAge := some 18 }] 5).length) :=
  claim_c6 _ _ 5 (by decide) (by decide)

end SchemeShala
